import Mathlib

/-!
Shallow embedding of the continuousprint driver state machine
(src/continuousprint/driver.py) and of the work-accounting model
(src/continuousprint/storage/database.py), with theorems checking the
natural-language specification against the code.

Modelling notes:
- Python state functions become Lean functions returning a `StepResult`:
  an optional next state (None in Python = stay), the updated mutable
  driver fields, and the list of side effects (queue and script-runner
  calls) emitted during the call.  An attribute access on a Python `None`
  value (a crash) is modelled as `StepResult.crash`.
- Printer/queue collaborators are modelled as an `Env` record sampled per
  call: the values `get_set_or_acquire()`, `get_set()`, `get_run()`,
  `time.time()` and the boolean result of `start_print` would return.
- Human-readable status strings are abstracted as a tagged `StatusMsg`
  carrying the interpolated arguments; `_set_status` compares messages
  for equality exactly as the Python code compares the strings.
- Machine integers are `Int`/`Nat`; timestamps are `Int` seconds.
-/

namespace ContinuousPrint

/-- Events fed to the driver (class `Action` in driver.py). -/
inductive DAction where
  | ACTIVATE
  | DEACTIVATE
  | SUCCESS
  | FAILURE
  | SPAGHETTI
  | TICK
deriving DecidableEq

/-- Sampled printer status (class `Printer` in driver.py). -/
inductive Printer where
  | IDLE
  | PAUSED
  | BUSY
deriving DecidableEq

/-- The driver states; each tag names one `_state_*` method of `Driver`. -/
inductive DState where
  | unknown
  | inactive
  | startPrint
  | printing
  | paused
  | spaghettiRecovery
  | failure
  | success
  | startClearing
  | clearing
  | startFinishing
  | finishing
deriving DecidableEq

/-- Status messages set via `_set_status`, abstracted as tags carrying the
interpolated arguments (two messages are equal iff tag and arguments are). -/
inductive StatusMsg where
  | initializing
  | clickStartManaging
  | unmanagedMsg
  | waitingForPrinter
  | noWork
  | waitingForSpool (im : String) (tool : Nat) (cur : Option String)
  | pausedAwait (elapsed : Int) (threshold : Int)
  | printingMsg
  | queuePaused
  | cancellingSpaghetti
  | clearingErrorAbort
  | clearingBed
  | finishingUp
deriving DecidableEq

/-- The item handed to the driver by the queue facade. `materials` is the
ordered list of required material keys per tool slot, `none` meaning no
constraint for that slot (the check `if im is None: continue`). -/
structure SetItem where
  path : String
  materials : List (Option String)
deriving DecidableEq

/-- The open Run as seen by the driver; only the start timestamp is read. -/
structure RunRec where
  start : Int
deriving DecidableEq

/-- Per-call snapshot of the external collaborators: what the queue facade,
the script runner and the clock would answer during this `action()` call. -/
structure Env where
  qSetOrAcquire : Option SetItem
  qSet : Option SetItem
  qRun : Option RunRec
  now : Int
  startPrintOk : Bool
deriving DecidableEq

/-- Side effects on the collaborators, in emission order. -/
inductive Effect where
  | beginRun
  | endRun (result : String)
  | startPrint (path : String)
  | cancelPrint
  | clearBed
  | runFinishScript
deriving DecidableEq

/-- Whether an effect is a Script Runner operation (as opposed to a queue
facade call such as begin_run / end_run). -/
def Effect.isRunnerOp : Effect → Bool
  | .startPrint _ => true
  | .cancelPrint => true
  | .clearBed => true
  | .runFinishScript => true
  | _ => false

/-- Number of Script Runner operations in an effect list. -/
def runnerOps (l : List Effect) : Nat := (l.filter Effect.isRunnerOp).length

/-- The mutable fields of the Python `Driver` object. -/
structure Driver where
  state : DState
  status : StatusMsg
  retries : Nat
  retry_on_pause : Bool
  max_retries : Nat
  retry_threshold_seconds : Int
  first_print : Bool
  cur_path : Option String
  cur_materials : List String
  update_ui : Bool
deriving DecidableEq

/-- Driver state after `__init__`: status set to Initializing, then the
dirty flag reset to False on the last line of the constructor. -/
def initDriver : Driver :=
  { state := .unknown
    status := .initializing
    retries := 0
    retry_on_pause := false
    max_retries := 0
    retry_threshold_seconds := 0
    first_print := true
    cur_path := none
    cur_materials := []
    update_ui := false }

/-- Mirror of `Driver._set_status`: update the message and mark the UI
dirty only when the message changed. -/
def setStatus (d : Driver) (s : StatusMsg) : Driver :=
  if s ≠ d.status then { d with update_ui := true, status := s } else d

/-- Mirror of `Driver.set_retry_on_pause`. -/
def Driver.set_retry_on_pause (d : Driver) (enabled : Bool)
    (max_retries : Nat) (retry_threshold_seconds : Int) : Driver :=
  { d with
    retry_on_pause := enabled
    max_retries := max_retries
    retry_threshold_seconds := retry_threshold_seconds }

/-- The material-check loop of `_state_start_print`, from index `i`:
skip slots with no constraint; otherwise compare the required key with the
loaded material at the same absolute slot (`None` when out of range);
return the first mismatch as (required, slot, loaded). -/
def matCheckFrom (mats : List (Option String)) (cur : List String) (i : Nat) :
    Option (String × Nat × Option String) :=
  match mats with
  | [] => none
  | om :: rest =>
    match om with
    | none => matCheckFrom rest cur (i + 1)
    | some im =>
      if some im = cur[i]? then matCheckFrom rest cur (i + 1)
      else some (im, i, cur[i]?)

/-- First material mismatch of the whole list, if any. -/
def matCheck (mats : List (Option String)) (cur : List String) :
    Option (String × Nat × Option String) :=
  matCheckFrom mats cur 0

/-- Result of one Python state-function call: optional next state, updated
driver fields, emitted effects; or a crash (attribute access on None). -/
inductive StepResult where
  | ok (next : Option DState) (d : Driver) (effs : List Effect)
  | crash (msg : String)
deriving DecidableEq

/-- Mirror of `Driver._state_unknown`. -/
def state_unknown (d : Driver) (_env : Env) (a : DAction) (_p : Printer) : StepResult :=
  if a = DAction.DEACTIVATE then .ok (some .inactive) d []
  else .ok none d []

/-- Mirror of `Driver._state_start_print`. -/
def state_start_print (d : Driver) (env : Env) (a : DAction) (p : Printer) : StepResult :=
  if a = DAction.DEACTIVATE then .ok (some .inactive) d []
  else if p ≠ Printer.IDLE then .ok none (setStatus d .waitingForPrinter) []
  else
    match env.qSetOrAcquire with
    | none => .ok (some .inactive) (setStatus d .noWork) []
    | some item =>
      match matCheck item.materials d.cur_materials with
      | some (im, i, cur) => .ok none (setStatus d (.waitingForSpool im i cur)) []
      | none =>
        if env.startPrintOk then
          .ok (some .printing) d [.beginRun, .startPrint item.path]
        else
          .ok none d [.beginRun, .startPrint item.path]

/-- Mirror of `Driver._enter_start_print`: pre-call the StartPrint state
function on entry to eliminate the tick delay. -/
def enter_start_print (d : Driver) (env : Env) (a : DAction) (p : Printer) : StepResult :=
  match state_start_print d env a p with
  | .ok nxt d2 effs => .ok (some (nxt.getD .startPrint)) d2 effs
  | .crash m => .crash m

/-- Mirror of `Driver._state_inactive`. -/
def state_inactive (d : Driver) (env : Env) (a : DAction) (p : Printer) : StepResult :=
  let d := { d with retries := 0 }
  if a = DAction.ACTIVATE then
    if p ≠ Printer.IDLE then .ok (some .printing) d []
    else enter_start_print d env a p
  else
    if p = Printer.IDLE then .ok none (setStatus d .clickStartManaging) []
    else .ok none (setStatus d .unmanagedMsg) []

/-- Mirror of `Driver._state_printing`; on SPAGHETTI the open Run start is
read (crash when no run is open), on SUCCESS the current Set is read
(crash when there is none). -/
def state_printing (d : Driver) (env : Env) (a : DAction) (p : Printer) : StepResult :=
  if a = DAction.DEACTIVATE then .ok (some .inactive) d []
  else if a = DAction.FAILURE then .ok (some .failure) d []
  else if a = DAction.SPAGHETTI then
    match env.qRun with
    | none => .crash "get_run returned None"
    | some run =>
      let elapsed : Int := env.now - run.start
      if d.retry_on_pause = true ∧ elapsed < d.retry_threshold_seconds then
        .ok (some .spaghettiRecovery) d []
      else
        .ok (some .paused)
          (setStatus d (.pausedAwait elapsed d.retry_threshold_seconds)) []
  else if a = DAction.SUCCESS then
    match env.qSet with
    | none => .crash "get_set returned None"
    | some item =>
      if d.cur_path = some item.path then .ok (some .success) d []
      else .ok (some .startClearing) d []
  else
    if p = Printer.BUSY then
      match env.qSet with
      | some _ => .ok none (setStatus d .printingMsg) []
      | none => .ok none d []
    else if p = Printer.PAUSED then .ok (some .paused) d []
    else if p = Printer.IDLE then .ok (some .success) d []
    else .ok none d []

/-- Mirror of `Driver._state_paused`. -/
def state_paused (d : Driver) (_env : Env) (a : DAction) (p : Printer) : StepResult :=
  let d := setStatus d .queuePaused
  if a = DAction.DEACTIVATE ∨ p = Printer.IDLE then .ok (some .inactive) d []
  else if p = Printer.BUSY then .ok (some .printing) d []
  else .ok none d []

/-- Mirror of `Driver._state_spaghetti_recovery`. -/
def state_spaghetti_recovery (d : Driver) (_env : Env) (_a : DAction) (p : Printer) :
    StepResult :=
  let d := setStatus d .cancellingSpaghetti
  if p = Printer.PAUSED then .ok (some .failure) d [.cancelPrint]
  else .ok none d []

/-- Mirror of `Driver._state_failure`. -/
def state_failure (d : Driver) (_env : Env) (_a : DAction) (p : Printer) : StepResult :=
  if p ≠ Printer.IDLE then .ok none d []
  else if d.retries + 1 < d.max_retries then
    .ok (some .startClearing) { d with retries := d.retries + 1 } []
  else
    .ok (some .inactive) d [.endRun "failure"]

/-- Mirror of `Driver._state_success`. -/
def state_success (d : Driver) (env : Env) (_a : DAction) (_p : Printer) : StepResult :=
  let d := { d with retries := 0 }
  match env.qSetOrAcquire with
  | some _ => .ok (some .startClearing) d [.endRun "success"]
  | none => .ok (some .startFinishing) d [.endRun "success"]

/-- Mirror of `Driver._state_start_clearing`. -/
def state_start_clearing (d : Driver) (_env : Env) (a : DAction) (p : Printer) :
    StepResult :=
  if a = DAction.DEACTIVATE then .ok (some .inactive) d []
  else if p ≠ Printer.IDLE then .ok none (setStatus d .waitingForPrinter) []
  else .ok (some .clearing) d [.clearBed]

/-- Mirror of `Driver._state_clearing`. -/
def state_clearing (d : Driver) (env : Env) (a : DAction) (p : Printer) : StepResult :=
  if a = DAction.DEACTIVATE then .ok (some .inactive) d []
  else if a = DAction.SUCCESS then enter_start_print d env a p
  else if a = DAction.FAILURE then
    .ok (some .inactive) (setStatus d .clearingErrorAbort) []
  else if p = Printer.IDLE then enter_start_print d env a p
  else .ok none (setStatus d .clearingBed) []

/-- Mirror of `Driver._state_start_finishing`. -/
def state_start_finishing (d : Driver) (_env : Env) (a : DAction) (p : Printer) :
    StepResult :=
  if a = DAction.DEACTIVATE then .ok (some .inactive) d []
  else if p ≠ Printer.IDLE then .ok none (setStatus d .waitingForPrinter) []
  else .ok (some .finishing) d [.runFinishScript]

/-- Mirror of `Driver._state_finishing`. -/
def state_finishing (d : Driver) (_env : Env) (a : DAction) (p : Printer) : StepResult :=
  if a = DAction.DEACTIVATE ∨ a = DAction.SUCCESS ∨ a = DAction.FAILURE then
    .ok (some .inactive) d []
  else if p = Printer.IDLE then .ok (some .inactive) d []
  else .ok none (setStatus d .finishingUp) []

/-- Dispatch on the stored state function (`self.state(a, p)`). -/
def stepState (s : DState) (d : Driver) (env : Env) (a : DAction) (p : Printer) :
    StepResult :=
  match s with
  | .unknown => state_unknown d env a p
  | .inactive => state_inactive d env a p
  | .startPrint => state_start_print d env a p
  | .printing => state_printing d env a p
  | .paused => state_paused d env a p
  | .spaghettiRecovery => state_spaghetti_recovery d env a p
  | .failure => state_failure d env a p
  | .success => state_success d env a p
  | .startClearing => state_start_clearing d env a p
  | .clearing => state_clearing d env a p
  | .startFinishing => state_start_finishing d env a p
  | .finishing => state_finishing d env a p

/-- Cache the supplied path when one is given (`if path is not None`). -/
def updPath (d : Driver) : Option String → Driver
  | some pa => { d with cur_path := some pa }
  | none => d

/-- Cache the supplied materials when non-empty (`if len(materials) > 0`). -/
def updMats (d : Driver) (materials : List String) : Driver :=
  if materials.length > 0 then { d with cur_materials := materials } else d

/-- Result of one `Driver.action` call: the driver, the returned dirty
flag and the effects emitted; or a crash. -/
inductive ActResult where
  | ok (d : Driver) (dirty : Bool) (effs : List Effect)
  | crash (msg : String)
deriving DecidableEq

/-- Tail of `Driver.action` after the state function ran: install the next
state when one was returned (marking the UI dirty), then return and reset
the dirty flag. -/
def actFinish : StepResult → ActResult
  | .crash m => .crash m
  | .ok nxt d2 effs =>
    match nxt with
    | some s => .ok { d2 with state := s, update_ui := false } true effs
    | none =>
      if d2.update_ui then .ok { d2 with update_ui := false } true effs
      else .ok d2 false effs

/-- Mirror of `Driver.action`: cache path/materials, run the current state
function, then finish as in the tail of the method. -/
def Driver.act (d : Driver) (env : Env) (a : DAction) (p : Printer)
    (path : Option String) (materials : List String) : ActResult :=
  let d := updPath d path
  let d := updMats d materials
  actFinish (stepState d.state d env a p)

/-- Driver reached by an `ActResult`, when the call did not crash. -/
def ActResult.driverOf : ActResult → Option Driver
  | .ok d _ _ => some d
  | .crash _ => none

/-- State reached by an `ActResult`, when the call did not crash. -/
def ActResult.stateOf : ActResult → Option DState
  | .ok d _ _ => some d.state
  | .crash _ => none

/-- Status message after an `ActResult`, when the call did not crash. -/
def ActResult.statusOf : ActResult → Option StatusMsg
  | .ok d _ _ => some d.status
  | .crash _ => none

/-- Effects emitted by an `ActResult` (a crash emits nothing first). -/
def ActResult.effectsOf : ActResult → List Effect
  | .ok _ _ effs => effs
  | .crash _ => []

/-- One scripted call to `Driver.action`. -/
structure Call where
  env : Env
  a : DAction
  p : Printer
  path : Option String
  materials : List String
deriving DecidableEq

/-- Run a sequence of `action` calls; the result is that of the last call
(or the first crash). -/
def runTrace (d : Driver) : List Call → ActResult
  | [] => .ok d false []
  | c :: rest =>
    match d.act c.env c.a c.p c.path c.materials with
    | .ok d2 dirty effs =>
      match rest with
      | [] => .ok d2 dirty effs
      | _ :: _ => runTrace d2 rest
    | .crash m => .crash m

/-- Environment for calls that consult no collaborator. -/
def envNone : Env :=
  { qSetOrAcquire := none, qSet := none, qRun := none, now := 0, startPrintOk := false }

/-- Effects of a `StepResult` (a crash emits nothing first). -/
def StepResult.effects : StepResult → List Effect
  | .ok _ _ effs => effs
  | .crash _ => []

/-! ## Work-accounting model (storage/database.py) -/

/-- The fields of the `Set` model read by the counter logic: per-item
repeat counters and the CSV of required material keys. -/
structure Set where
  path : String
  count : Int
  remaining : Int
  material_keys : String
deriving DecidableEq

/-- Mirror of `Set.materials`: split the CSV, empty field means no list. -/
def Set.materials (s : Set) : List String :=
  if s.material_keys = "" then [] else s.material_keys.splitOn ","

/-- The fields of the `Job` model read by the counter logic, with its
child sets inlined (the `sets` backref). -/
structure Job where
  count : Int
  remaining : Int
  sets : List Set
deriving DecidableEq

/-- Mirror of `Job.has_incomplete_sets`. -/
def Job.has_incomplete_sets (j : Job) : Bool :=
  j.sets.any (fun s => decide (s.remaining > 0))

/-- Mirror of `Job.has_work`. -/
def Job.has_work (j : Job) : Bool :=
  j.has_incomplete_sets || decide (j.remaining > 0)

/-- Mirror of `Job.decrement` (in-memory semantics, `save=False`): floor
the decrement at 0; when remaining is still positive afterwards reset
every child set, then report `has_work` on the new state. -/
def Job.decrement (j : Job) : Job × Bool :=
  let j := { j with remaining := max (j.remaining - 1) 0 }
  let j :=
    if j.remaining > 0 then
      { j with sets := j.sets.map (fun s => { s with remaining := s.count }) }
    else j
  (j, j.has_work)

/-- Floor-decrement the `remaining` of the set at index `k`, leaving its
siblings untouched (the mutation `self.remaining = max(0, self.remaining - 1)`
seen from the owning job). -/
def decSetAt : List Set → Nat → List Set
  | [], _ => []
  | s :: rest, 0 => { s with remaining := max 0 (s.remaining - 1) } :: rest
  | s :: rest, k + 1 => s :: decSetAt rest k

/-- Mirror of `Set.decrement` on the set at index `k` of job `j`:
floor-decrement that set, then when the job has no incomplete sets left
cascade into `Job.decrement`. -/
def Set.decrement (j : Job) (k : Nat) : Job :=
  let j2 := { j with sets := decSetAt j.sets k }
  if j2.has_incomplete_sets = false then (Job.decrement j2).1 else j2

/-- Modelled from the spec: the queue facade (not under src/) hands the
driver the selected Set; per the data model an empty material entry means
no constraint for that slot, so empty entries are presented as `none`. -/
def toSlotConstraints (ms : List String) : List (Option String) :=
  ms.map (fun m => if m = "" then none else some m)

/-- Invariant on a Set enforced by the storage layer Check constraints:
count is positive and remaining lies in [0, count]. -/
def SetInv (s : Set) : Prop :=
  0 < s.count ∧ 0 ≤ s.remaining ∧ s.remaining ≤ s.count

/-- Invariant on a Job: its own counters are in bounds and every child
Set satisfies `SetInv`. -/
def JobInv (j : Job) : Prop :=
  0 < j.count ∧ 0 ≤ j.remaining ∧ j.remaining ≤ j.count ∧ ∀ s ∈ j.sets, SetInv s

/-! ## Concrete scenarios used in counterexamples and witnesses -/

/-- Eligible set with no material constraints. -/
def plainItem : SetItem := { path := "a.gcode", materials := [] }

/-- Environment offering `plainItem`, with `start_print` succeeding. -/
def envPlain : Env :=
  { envNone with qSetOrAcquire := some plainItem, startPrintOk := true }

/-- Driver parked in the Printing state. -/
def printingDriver : Driver := { initDriver with state := .printing }

/-- Trace reaching the Failure state and then sending DEACTIVATE with a
busy printer: Unknown, Inactive, Printing, Failure, then DEACTIVATE. -/
def c1Trace : List Call :=
  [ ⟨envNone, .DEACTIVATE, .BUSY, none, []⟩
  , ⟨envNone, .ACTIVATE, .BUSY, none, []⟩
  , ⟨envNone, .FAILURE, .BUSY, none, []⟩
  , ⟨envNone, .DEACTIVATE, .BUSY, none, []⟩ ]

/-- Driver mid-print with `max_retries = 2` and no retries used yet. -/
def c3Start : Driver :=
  { initDriver with state := .printing, max_retries := 2, cur_path := some "a.gcode" }

/-- Two FAILURE-then-IDLE cycles starting from `c3Start`, with the
bed-clear and the restart of printing between them. -/
def c3Trace : List Call :=
  [ ⟨envNone, .FAILURE, .BUSY, none, []⟩
  , ⟨envNone, .TICK, .IDLE, none, []⟩
  , ⟨envNone, .TICK, .IDLE, none, []⟩
  , ⟨envPlain, .TICK, .IDLE, none, []⟩
  , ⟨envNone, .FAILURE, .BUSY, none, []⟩
  , ⟨envNone, .TICK, .IDLE, none, []⟩ ]

/-- Trace reaching Paused (via Printing) and then sending ACTIVATE while
the printer reports BUSY. -/
def c8Trace : List Call :=
  [ ⟨envNone, .DEACTIVATE, .BUSY, none, []⟩
  , ⟨envNone, .ACTIVATE, .BUSY, none, []⟩
  , ⟨envNone, .TICK, .PAUSED, none, []⟩
  , ⟨envNone, .ACTIVATE, .BUSY, none, []⟩ ]

/-- Driver mid-print with retry-on-pause enabled and a 3600 s threshold. -/
def spagDriver : Driver :=
  { initDriver with
    state := .printing, retry_on_pause := true, retry_threshold_seconds := 3600 }

/-- Run opened at time 0, clock at 10 seconds. -/
def envRun10 : Env := { envNone with qRun := some ⟨0⟩, now := 10 }

/-- Run opened at time 0, clock at 4000 seconds. -/
def envRun4000 : Env := { envNone with qRun := some ⟨0⟩, now := 4000 }

/-- Driver in the SpaghettiRecovery state. -/
def recDriver : Driver := { initDriver with state := .spaghettiRecovery }

/-- Set requiring material PLA-Red in tool slot 0. -/
def redItem : SetItem := { path := "x.gcode", materials := [some "PLA-Red"] }

/-- Environment offering `redItem`, with `start_print` succeeding. -/
def envRed : Env :=
  { envNone with qSetOrAcquire := some redItem, startPrintOk := true }

/-- Driver in StartPrint with PLA-Black loaded in tool 0. -/
def blackDriver : Driver :=
  { initDriver with state := .startPrint, cur_materials := ["PLA-Black"] }

/-- Job with two passes remaining whose only set is already complete. -/
def floorJob : Job := { count := 2, remaining := 2, sets := [⟨"x", 1, 0, ""⟩] }

/-! ## Helper lemmas on the embedding -/

theorem updPath_state (d : Driver) (pa : Option String) :
    (updPath d pa).state = d.state := by
  cases pa <;> rfl

theorem updMats_state (d : Driver) (ms : List String) :
    (updMats d ms).state = d.state := by
  unfold updMats; split <;> rfl

theorem setStatus_state (d : Driver) (s : StatusMsg) :
    (setStatus d s).state = d.state := by
  unfold setStatus; split <;> rfl

theorem setStatus_status (d : Driver) (s : StatusMsg) :
    (setStatus d s).status = s := by
  unfold setStatus
  split
  · rfl
  · next h => simpa using (not_not.mp (fun hne => h hne)).symm

theorem setStatus_retries (d : Driver) (s : StatusMsg) :
    (setStatus d s).retries = d.retries := by
  unfold setStatus; split <;> rfl

theorem actFinish_crash (m : String) : actFinish (.crash m) = .crash m := rfl

theorem actFinish_some_stateOf (s : DState) (d2 : Driver) (effs : List Effect) :
    (actFinish (.ok (some s) d2 effs)).stateOf = some s := rfl

theorem actFinish_none_stateOf (d2 : Driver) (effs : List Effect) :
    (actFinish (.ok none d2 effs)).stateOf = some d2.state := by
  by_cases h : d2.update_ui <;> simp [actFinish, h, ActResult.stateOf]

theorem actFinish_effectsOf (nxt : Option DState) (d2 : Driver) (effs : List Effect) :
    (actFinish (.ok nxt d2 effs)).effectsOf = effs := by
  cases nxt with
  | some s => rfl
  | none => by_cases h : d2.update_ui <;> simp [actFinish, h, ActResult.effectsOf]

theorem actFinish_statusOf (nxt : Option DState) (d2 : Driver) (effs : List Effect) :
    (actFinish (.ok nxt d2 effs)).statusOf = some d2.status := by
  cases nxt with
  | some s => rfl
  | none => by_cases h : d2.update_ui <;> simp [actFinish, h, ActResult.statusOf]

theorem actFinish_effectsOf_crash (m : String) :
    (actFinish (.crash m)).effectsOf = [] := rfl

theorem updPath_retry_on_pause (d : Driver) (pa : Option String) :
    (updPath d pa).retry_on_pause = d.retry_on_pause := by
  cases pa <;> rfl

theorem updMats_retry_on_pause (d : Driver) (ms : List String) :
    (updMats d ms).retry_on_pause = d.retry_on_pause := by
  unfold updMats; split <;> rfl

theorem updPath_threshold (d : Driver) (pa : Option String) :
    (updPath d pa).retry_threshold_seconds = d.retry_threshold_seconds := by
  cases pa <;> rfl

theorem updMats_threshold (d : Driver) (ms : List String) :
    (updMats d ms).retry_threshold_seconds = d.retry_threshold_seconds := by
  unfold updMats; split <;> rfl

theorem act_eq_actFinish (d : Driver) (env : Env) (a : DAction) (p : Printer)
    (pa : Option String) (ms : List String) :
    d.act env a p pa ms =
      actFinish (stepState (updMats (updPath d pa) ms).state
        (updMats (updPath d pa) ms) env a p) := rfl

theorem runnerOps_ok_of_le (r : StepResult)
    (h : ∀ nxt d2 effs, r = .ok nxt d2 effs → runnerOps effs ≤ 1) :
    runnerOps r.effects ≤ 1 := by
  cases r with
  | ok nxt d2 effs => exact h nxt d2 effs rfl
  | crash m => simp [StepResult.effects, runnerOps, List.filter]

theorem runnerOps_state_start_print (d : Driver) (env : Env) (a : DAction) (p : Printer) :
    runnerOps (state_start_print d env a p).effects ≤ 1 := by
  apply runnerOps_ok_of_le
  intro nxt d2 effs heq
  unfold state_start_print at heq
  repeat' (split at heq)
  all_goals
    injection heq with h1 h2 h3
    subst h3
    simp [runnerOps, Effect.isRunnerOp, List.filter]

theorem runnerOps_enter_start_print (d : Driver) (env : Env) (a : DAction) (p : Printer) :
    runnerOps (enter_start_print d env a p).effects ≤ 1 := by
  have h := runnerOps_state_start_print d env a p
  unfold enter_start_print
  cases hs : state_start_print d env a p with
  | ok nxt d2 effs =>
    rw [hs] at h
    simpa [StepResult.effects] using h
  | crash m => simp [StepResult.effects, runnerOps, List.filter]

theorem runnerOps_enter_ok (d : Driver) (env : Env) (a : DAction) (p : Printer)
    (nxt : Option DState) (d2 : Driver) (effs : List Effect)
    (h : enter_start_print d env a p = .ok nxt d2 effs) : runnerOps effs ≤ 1 := by
  have h2 := runnerOps_enter_start_print d env a p
  rw [h] at h2
  simpa [StepResult.effects] using h2

theorem runnerOps_stepState (s : DState) (d : Driver) (env : Env) (a : DAction)
    (p : Printer) :
    runnerOps (stepState s d env a p).effects ≤ 1 := by
  cases s <;> simp only [stepState]
  case startPrint => exact runnerOps_state_start_print d env a p
  all_goals
    apply runnerOps_ok_of_le
    intro nxt d2 effs heq
  case inactive =>
    unfold state_inactive at heq
    repeat' (split at heq)
    all_goals
      first
        | exact runnerOps_enter_ok _ _ _ _ _ _ _ heq
        | (injection heq with h1 h2 h3
           subst h3
           simp [runnerOps, Effect.isRunnerOp, List.filter])
  case clearing =>
    unfold state_clearing at heq
    repeat' (split at heq)
    all_goals
      first
        | exact runnerOps_enter_ok _ _ _ _ _ _ _ heq
        | (injection heq with h1 h2 h3
           subst h3
           simp [runnerOps, Effect.isRunnerOp, List.filter])
  all_goals
    simp only [state_unknown, state_printing, state_paused, state_spaghetti_recovery,
      state_failure, state_success, state_start_clearing, state_start_finishing,
      state_finishing] at heq
  all_goals
    repeat' (split at heq)
  all_goals
    first
      | exact StepResult.noConfusion heq
      | (injection heq with h1 h2 h3
         subst h3
         simp [runnerOps, Effect.isRunnerOp, List.filter])

theorem matCheckFrom_eq_none_iff (mats : List (Option String)) (cur : List String)
    (i : Nat) :
    matCheckFrom mats cur i = none ↔
      ∀ (k : Nat) (m : String), mats[k]? = some (some m) → cur[i + k]? = some m := by
  induction mats generalizing i with
  | nil => simp [matCheckFrom]
  | cons om rest ih =>
    cases om with
    | none =>
      rw [show matCheckFrom (none :: rest) cur i = matCheckFrom rest cur (i + 1) from rfl,
        ih]
      constructor
      · intro h k m hk
        cases k with
        | zero => simp at hk
        | succ k =>
          simp only [List.getElem?_cons_succ] at hk
          have h2 := h k m hk
          have he : i + (k + 1) = i + 1 + k := by omega
          rw [he]
          exact h2
      · intro h k m hk
        have h2 := h (k + 1) m (by simpa using hk)
        have he : i + 1 + k = i + (k + 1) := by omega
        rw [he]
        exact h2
    | some im =>
      by_cases hc : some im = cur[i]?
      · rw [show matCheckFrom (some im :: rest) cur i
              = if some im = cur[i]? then matCheckFrom rest cur (i + 1)
                else some (im, i, cur[i]?) from rfl, if_pos hc, ih]
        constructor
        · intro h k m hk
          cases k with
          | zero =>
            simp only [List.getElem?_cons_zero, Option.some.injEq] at hk
            subst hk
            simpa using hc.symm
          | succ k =>
            simp only [List.getElem?_cons_succ] at hk
            have h2 := h k m hk
            have he : i + (k + 1) = i + 1 + k := by omega
            rw [he]
            exact h2
        · intro h k m hk
          have h2 := h (k + 1) m (by simpa using hk)
          have he : i + 1 + k = i + (k + 1) := by omega
          rw [he]
          exact h2
      · rw [show matCheckFrom (some im :: rest) cur i
              = if some im = cur[i]? then matCheckFrom rest cur (i + 1)
                else some (im, i, cur[i]?) from rfl, if_neg hc]
        constructor
        · intro h
          exact absurd h (by simp)
        · intro h
          exfalso
          have h2 := h 0 im (by simp)
          rw [Nat.add_zero] at h2
          exact hc h2.symm

theorem matCheck_eq_none_iff (mats : List (Option String)) (cur : List String) :
    matCheck mats cur = none ↔
      ∀ (k : Nat) (m : String), mats[k]? = some (some m) → cur[k]? = some m := by
  rw [matCheck, matCheckFrom_eq_none_iff]
  simp

theorem decSetAt_getElem (l : List Set) (k : Nat) :
    (decSetAt l k)[k]? =
      (l[k]?).map (fun s => { s with remaining := max 0 (s.remaining - 1) }) := by
  induction l generalizing k with
  | nil => simp [decSetAt]
  | cons s rest ih =>
    cases k with
    | zero => simp [decSetAt]
    | succ k => simpa [decSetAt] using ih k

theorem mem_decSetAt (l : List Set) (k : Nat) :
    ∀ t ∈ decSetAt l k,
      t ∈ l ∨ ∃ s ∈ l, t = { s with remaining := max 0 (s.remaining - 1) } := by
  induction l generalizing k with
  | nil => simp [decSetAt]
  | cons s rest ih =>
    cases k with
    | zero =>
      intro t ht
      rcases List.mem_cons.mp ht with h | h
      · exact Or.inr ⟨s, List.mem_cons_self s rest, h⟩
      · exact Or.inl (List.mem_cons_of_mem s h)
    | succ k =>
      intro t ht
      rcases List.mem_cons.mp ht with h | h
      · exact Or.inl (h ▸ List.mem_cons_self s rest)
      · rcases ih k t h with h2 | ⟨s0, hs0, h2⟩
        · exact Or.inl (List.mem_cons_of_mem s h2)
        · exact Or.inr ⟨s0, List.mem_cons_of_mem s hs0, h2⟩

theorem setInv_decSetAt (l : List Set) (k : Nat) (h : ∀ s ∈ l, SetInv s) :
    ∀ t ∈ decSetAt l k, SetInv t := by
  intro t ht
  rcases mem_decSetAt l k t ht with h1 | ⟨s, hs, rfl⟩
  · exact h t h1
  · obtain ⟨sc, sr0, src⟩ := h s hs
    refine ⟨sc, le_max_left _ _, ?_⟩
    have : s.remaining - 1 ≤ s.count := by omega
    exact max_le (le_of_lt sc) this

theorem jobInv_decrement (j : Job) (hj : JobInv j) : JobInv (Job.decrement j).1 := by
  obtain ⟨hc, hr0, hrc, hsets⟩ := hj
  simp only [Job.decrement]
  split
  · refine ⟨hc, le_max_right _ _, ?_, ?_⟩
    · show max (j.remaining - 1) 0 ≤ j.count
      omega
    · intro s hsm
      rcases List.mem_map.mp hsm with ⟨s0, hs0, rfl⟩
      obtain ⟨sc, sr0, src⟩ := hsets s0 hs0
      exact ⟨sc, le_of_lt sc, le_refl _⟩
  · refine ⟨hc, le_max_right _ _, ?_, hsets⟩
    show max (j.remaining - 1) 0 ≤ j.count
    omega

theorem set_floor_eq (s : Set) (h : s.remaining = 0) :
    ({ s with remaining := max 0 (s.remaining - 1) } : Set) = s := by
  cases s with
  | mk path count remaining material_keys =>
    simp only at h
    subst h
    congr 1

/-! ## Claim theorems -/

/-- C1, counterexample: the Failure state is reachable (Unknown, Inactive,
Printing, Failure) and there a DEACTIVATE with a non-idle printer leaves
the driver in Failure, not Inactive. -/
theorem c1_deactivate_not_universal :
    (runTrace initDriver c1Trace).stateOf = some DState.failure
    ∧ (runTrace initDriver c1Trace).stateOf ≠ some DState.inactive := by
  decide

/-- C1, amended: calling action with DEACTIVATE ends in the Inactive state
from every driver state except Failure, Success and SpaghettiRecovery,
whose handlers ignore the event. -/
theorem c1_deactivate_escape (d : Driver) (env : Env) (p : Printer)
    (pa : Option String) (ms : List String)
    (h1 : d.state ≠ DState.failure) (h2 : d.state ≠ DState.success)
    (h3 : d.state ≠ DState.spaghettiRecovery) :
    (d.act env .DEACTIVATE p pa ms).stateOf = some DState.inactive := by
  have hst : (updMats (updPath d pa) ms).state = d.state := by
    rw [updMats_state, updPath_state]
  rw [act_eq_actFinish, hst]
  cases hs : d.state <;>
    first
      | exact absurd hs h1
      | exact absurd hs h2
      | exact absurd hs h3
      | (cases p <;>
          simp [stepState, state_unknown, state_inactive, state_start_print,
            state_printing, state_paused, state_start_clearing, state_clearing,
            state_start_finishing, state_finishing, setStatus_state, hst, hs,
            actFinish_some_stateOf, actFinish_none_stateOf])

/-- C1, witness for the amended theorem at the Printing state. -/
theorem c1_deactivate_escape_witness :
    (printingDriver.act envNone .DEACTIVATE .BUSY none []).stateOf
      = some DState.inactive :=
  c1_deactivate_escape printingDriver envNone .BUSY none []
    (by decide) (by decide) (by decide)

/-- C3, counterexample: with max_retries = 2 the second FAILURE-then-IDLE
cycle does not route to StartClearing; it closes the run as a failure and
goes Inactive. -/
theorem c3_second_failure_not_retried :
    (runTrace c3Start c3Trace).stateOf = some DState.inactive
    ∧ (runTrace c3Start c3Trace).stateOf ≠ some DState.startClearing
    ∧ (runTrace c3Start c3Trace).effectsOf = [Effect.endRun "failure"] := by
  decide

/-- C3, amended: with max_retries = 2 and retries starting at 0, the first
FAILURE-then-IDLE cycle routes through StartClearing (retries becomes 1)
back into printing, and already the second failure closes the open Run
with result failure and returns the driver to Inactive. -/
theorem c3_retry_accounting :
    (runTrace c3Start (c3Trace.take 2)).stateOf = some DState.startClearing
    ∧ ((runTrace c3Start (c3Trace.take 2)).driverOf.map (fun x => x.retries))
        = some 1
    ∧ (runTrace c3Start (c3Trace.take 4)).stateOf = some DState.printing
    ∧ (runTrace c3Start c3Trace).stateOf = some DState.inactive
    ∧ (runTrace c3Start c3Trace).effectsOf = [Effect.endRun "failure"] := by
  decide

/-- C4: a single `action()` call, including the synchronous re-entry done
when entering StartPrint, invokes at most one Script Runner operation. -/
theorem c4_at_most_one_runner_op (d : Driver) (env : Env) (a : DAction) (p : Printer)
    (pa : Option String) (ms : List String) :
    runnerOps (d.act env a p pa ms).effectsOf ≤ 1 := by
  rw [act_eq_actFinish]
  have hb := runnerOps_stepState (updMats (updPath d pa) ms).state
    (updMats (updPath d pa) ms) env a p
  cases h : stepState (updMats (updPath d pa) ms).state
      (updMats (updPath d pa) ms) env a p with
  | crash m => simp [actFinish_crash, ActResult.effectsOf, runnerOps, List.filter]
  | ok nxt d2 effs =>
    rw [h] at hb
    simpa [actFinish_effectsOf, StepResult.effects] using hb

/-- C8, counterexample: Paused is reachable, and there ACTIVATE with a
BUSY printer goes to Printing, not Inactive. -/
theorem c8_activate_busy_counterexample :
    (runTrace initDriver c8Trace).stateOf = some DState.printing
    ∧ (runTrace initDriver c8Trace).stateOf ≠ some DState.inactive := by
  decide

/-- C8, amended: in Paused, DEACTIVATE (any printer status) or printer
IDLE go to Inactive; otherwise printer BUSY goes back to Printing (also
under ACTIVATE, which has no dedicated handling); otherwise the driver
stays Paused. -/
theorem c8_paused_transitions (d : Driver) (env : Env) (a : DAction) (p : Printer)
    (pa : Option String) (ms : List String) (hs : d.state = DState.paused) :
    (d.act env a p pa ms).stateOf =
      (if a = DAction.DEACTIVATE ∨ p = Printer.IDLE then some DState.inactive
       else if p = Printer.BUSY then some DState.printing
       else some DState.paused) := by
  have hst : (updMats (updPath d pa) ms).state = d.state := by
    rw [updMats_state, updPath_state]
  rw [act_eq_actFinish, hst, hs]
  by_cases h1 : a = DAction.DEACTIVATE ∨ p = Printer.IDLE
  · simp [stepState, state_paused, h1, actFinish_some_stateOf, setStatus_state]
  · have ha : a ≠ DAction.DEACTIVATE := fun h => h1 (Or.inl h)
    have hp : p ≠ Printer.IDLE := fun h => h1 (Or.inr h)
    by_cases h2 : p = Printer.BUSY
    · simp [stepState, state_paused, ha, hp, h2, actFinish_some_stateOf,
        setStatus_state]
    · simp [stepState, state_paused, ha, hp, h2, actFinish_none_stateOf,
        setStatus_state, hst, hs]

/-- C8, witness: ACTIVATE with BUSY printer in Paused resolves to
Printing by the amended transition table. -/
theorem c8_paused_transitions_witness :
    (({ initDriver with state := DState.paused } : Driver).act envNone
      .ACTIVATE .BUSY none []).stateOf = some DState.printing := by
  have h := c8_paused_transitions { initDriver with state := DState.paused }
    envNone .ACTIVATE .BUSY none [] rfl
  simpa using h

/-- C10: in Printing, SUCCESS with no current Set crashes on the path
dereference, while the BUSY status branch tolerates the missing Set and
stays in Printing. -/
theorem c10_success_requires_set (d : Driver) (env : Env) (p : Printer)
    (pa : Option String) (ms : List String)
    (hs : d.state = DState.printing) (hq : env.qSet = none) :
    d.act env .SUCCESS p pa ms = ActResult.crash "get_set returned None"
    ∧ (d.act env .TICK .BUSY pa ms).stateOf = some DState.printing := by
  have hst : (updMats (updPath d pa) ms).state = d.state := by
    rw [updMats_state, updPath_state]
  constructor
  · rw [act_eq_actFinish, hst, hs]
    simp [stepState, state_printing, hq, actFinish_crash]
  · rw [act_eq_actFinish, hst, hs]
    simp [stepState, state_printing, hq, actFinish_none_stateOf, hst, hs]

/-- C10, witness at the concrete printing driver with an empty queue
snapshot. -/
theorem c10_success_requires_set_witness :
    printingDriver.act envNone .SUCCESS .BUSY none []
      = ActResult.crash "get_set returned None"
    ∧ (printingDriver.act envNone .TICK .BUSY none []).stateOf
      = some DState.printing :=
  c10_success_requires_set printingDriver envNone .BUSY none [] rfl rfl

/-- C2: in Printing, SPAGHETTI goes to SpaghettiRecovery when retry on
pause is enabled and the elapsed time since the open Run start is below
the threshold, and to Paused otherwise; once in SpaghettiRecovery, a
PAUSED printer status triggers cancel_print and the Failure state. -/
theorem c2_spaghetti_routing (d : Driver) (env : Env) (p : Printer)
    (pa : Option String) (ms : List String) (run : RunRec)
    (hs : d.state = DState.printing) (hr : env.qRun = some run) :
    ((d.retry_on_pause = true ∧ env.now - run.start < d.retry_threshold_seconds →
        (d.act env .SPAGHETTI p pa ms).stateOf = some DState.spaghettiRecovery)
      ∧ (¬ (d.retry_on_pause = true ∧ env.now - run.start < d.retry_threshold_seconds) →
        (d.act env .SPAGHETTI p pa ms).stateOf = some DState.paused))
    ∧ (∀ (e : Driver) (env2 : Env) (a2 : DAction) (pa2 : Option String)
        (ms2 : List String), e.state = DState.spaghettiRecovery →
        (e.act env2 a2 .PAUSED pa2 ms2).stateOf = some DState.failure
        ∧ (e.act env2 a2 .PAUSED pa2 ms2).effectsOf = [Effect.cancelPrint]) := by
  have hst : (updMats (updPath d pa) ms).state = d.state := by
    rw [updMats_state, updPath_state]
  refine ⟨⟨?_, ?_⟩, ?_⟩
  · intro hc
    rw [act_eq_actFinish, hst, hs]
    simp [stepState, state_printing, hr, updMats_retry_on_pause,
      updPath_retry_on_pause, updMats_threshold, updPath_threshold, hc.1, hc.2,
      actFinish_some_stateOf]
  · intro hc
    rw [act_eq_actFinish, hst, hs]
    simp only [stepState, state_printing, hr]
    simp only [updMats_retry_on_pause, updPath_retry_on_pause, updMats_threshold,
      updPath_threshold]
    simp [hc, actFinish_some_stateOf]
  · intro e env2 a2 pa2 ms2 hs2
    have hst2 : (updMats (updPath e pa2) ms2).state = e.state := by
      rw [updMats_state, updPath_state]
    constructor
    · rw [act_eq_actFinish, hst2, hs2]
      simp [stepState, state_spaghetti_recovery, actFinish_some_stateOf]
    · rw [act_eq_actFinish, hst2, hs2]
      simp [stepState, state_spaghetti_recovery, actFinish_effectsOf]

/-- C2, witness: with retry on pause and a 3600 s threshold, a spaghetti
event 10 s into the run recovers (and a PAUSED status then cancels and
fails), while one 4000 s in pauses. -/
theorem c2_spaghetti_routing_witness :
    (spagDriver.act envRun10 .SPAGHETTI .PAUSED none []).stateOf
      = some DState.spaghettiRecovery
    ∧ (spagDriver.act envRun4000 .SPAGHETTI .PAUSED none []).stateOf
      = some DState.paused
    ∧ (recDriver.act envNone .TICK .PAUSED none []).stateOf = some DState.failure
    ∧ (recDriver.act envNone .TICK .PAUSED none []).effectsOf
      = [Effect.cancelPrint] := by
  refine ⟨?_, ?_, ?_, ?_⟩
  · exact (c2_spaghetti_routing spagDriver envRun10 .PAUSED none [] ⟨0⟩
      rfl rfl).1.1 (by decide)
  · exact (c2_spaghetti_routing spagDriver envRun4000 .PAUSED none [] ⟨0⟩
      rfl rfl).1.2 (by decide)
  · exact ((c2_spaghetti_routing spagDriver envRun10 .PAUSED none [] ⟨0⟩
      rfl rfl).2 recDriver envNone .TICK none [] rfl).1
  · exact ((c2_spaghetti_routing spagDriver envRun10 .PAUSED none [] ⟨0⟩
      rfl rfl).2 recDriver envNone .TICK none [] rfl).2

/-- C9: entering StartPrint with printer IDLE, an eligible Set, matching
materials and a successful start_print reaches Printing within the same
action call, both from Inactive on ACTIVATE and from Clearing on SUCCESS. -/
theorem c9_synchronous_start (d : Driver) (env : Env) (pa : Option String)
    (ms : List String) (item : SetItem)
    (hq : env.qSetOrAcquire = some item)
    (hm : matCheck item.materials (updMats (updPath d pa) ms).cur_materials = none)
    (hok : env.startPrintOk = true) :
    (d.state = DState.inactive →
      (d.act env .ACTIVATE .IDLE pa ms).stateOf = some DState.printing)
    ∧ (d.state = DState.clearing →
      (d.act env .SUCCESS .IDLE pa ms).stateOf = some DState.printing) := by
  have hst : (updMats (updPath d pa) ms).state = d.state := by
    rw [updMats_state, updPath_state]
  constructor
  · intro hs
    rw [act_eq_actFinish, hst, hs]
    simp [stepState, state_inactive, enter_start_print, state_start_print, hq, hm,
      hok, actFinish_some_stateOf]
  · intro hs
    rw [act_eq_actFinish, hst, hs]
    simp [stepState, state_clearing, enter_start_print, state_start_print, hq, hm,
      hok, actFinish_some_stateOf]

/-- C9, witness: both entry paths at a concrete driver and queue snapshot. -/
theorem c9_synchronous_start_witness :
    (({ initDriver with state := DState.inactive } : Driver).act envPlain
      .ACTIVATE .IDLE none []).stateOf = some DState.printing
    ∧ (({ initDriver with state := DState.clearing } : Driver).act envPlain
      .SUCCESS .IDLE none []).stateOf = some DState.printing := by
  constructor
  · exact (c9_synchronous_start { initDriver with state := DState.inactive }
      envPlain none [] plainItem rfl rfl rfl).1 rfl
  · exact (c9_synchronous_start { initDriver with state := DState.clearing }
      envPlain none [] plainItem rfl rfl rfl).2 rfl

/-- C5: in StartPrint with printer IDLE and a selected Set, the material
loop skips empty (no-constraint) entries, passes exactly when every
required entry equals the loaded material at the same slot, reports the
first mismatching slot and stays in StartPrint with no effects on a
mismatch, and on a match emits begin_run and start_print (reaching
Printing when start_print succeeds). -/
theorem c5_material_gate (d : Driver) (env : Env) (a : DAction) (pa : Option String)
    (ms : List String) (item : SetItem)
    (hs : d.state = DState.startPrint) (ha : a ≠ DAction.DEACTIVATE)
    (hq : env.qSetOrAcquire = some item) :
    (∀ (rest : List (Option String)) (cur : List String) (i : Nat),
        matCheckFrom (none :: rest) cur i = matCheckFrom rest cur (i + 1))
    ∧ (matCheck item.materials (updMats (updPath d pa) ms).cur_materials = none ↔
        ∀ (k : Nat) (m : String), item.materials[k]? = some (some m) →
          ((updMats (updPath d pa) ms).cur_materials)[k]? = some m)
    ∧ (∀ (im : String) (i : Nat) (cur : Option String),
        matCheck item.materials (updMats (updPath d pa) ms).cur_materials
            = some (im, i, cur) →
          (d.act env a .IDLE pa ms).stateOf = some DState.startPrint
          ∧ (d.act env a .IDLE pa ms).statusOf
              = some (StatusMsg.waitingForSpool im i cur)
          ∧ (d.act env a .IDLE pa ms).effectsOf = [])
    ∧ (matCheck item.materials (updMats (updPath d pa) ms).cur_materials = none →
          (d.act env a .IDLE pa ms).effectsOf
              = [Effect.beginRun, Effect.startPrint item.path]
          ∧ (env.startPrintOk = true →
              (d.act env a .IDLE pa ms).stateOf = some DState.printing)) := by
  have hst : (updMats (updPath d pa) ms).state = d.state := by
    rw [updMats_state, updPath_state]
  refine ⟨fun rest cur i => rfl, matCheck_eq_none_iff _ _, ?_, ?_⟩
  · intro im i cur hm
    refine ⟨?_, ?_, ?_⟩ <;>
      (rw [act_eq_actFinish, hst, hs]
       simp [stepState, state_start_print, ha, hq, hm, actFinish_none_stateOf,
         actFinish_statusOf, actFinish_effectsOf, setStatus_state, setStatus_status,
         hst, hs])
  · intro hm
    constructor
    · rw [act_eq_actFinish, hst, hs]
      cases hok : env.startPrintOk <;>
        simp [stepState, state_start_print, ha, hq, hm, hok, actFinish_effectsOf]
    · intro hok
      rw [act_eq_actFinish, hst, hs]
      simp [stepState, state_start_print, ha, hq, hm, hok, actFinish_some_stateOf]

/-- C5, witness: a Set requiring PLA-Red in slot 0 blocks while PLA-Black
is loaded, reporting the slot, and proceeds to begin_run / start_print and
Printing once PLA-Red is supplied. -/
theorem c5_material_gate_witness :
    (blackDriver.act envRed .TICK .IDLE none []).stateOf = some DState.startPrint
    ∧ (blackDriver.act envRed .TICK .IDLE none []).statusOf
        = some (StatusMsg.waitingForSpool "PLA-Red" 0 (some "PLA-Black"))
    ∧ (blackDriver.act envRed .TICK .IDLE none []).effectsOf = []
    ∧ (blackDriver.act envRed .TICK .IDLE none ["PLA-Red"]).effectsOf
        = [Effect.beginRun, Effect.startPrint "x.gcode"]
    ∧ (blackDriver.act envRed .TICK .IDLE none ["PLA-Red"]).stateOf
        = some DState.printing := by
  have h1 := (c5_material_gate blackDriver envRed .TICK none [] redItem
    rfl (by decide) rfl).2.2.1 "PLA-Red" 0 (some "PLA-Black") (by decide)
  have h2 := (c5_material_gate blackDriver envRed .TICK none ["PLA-Red"] redItem
    rfl (by decide) rfl).2.2.2 (by decide)
  exact ⟨h1.1, h1.2.1, h1.2.2, h2.1, h2.2 rfl⟩

/-- C6: Job.decrement lowers remaining by one floored at 0, resets every
child Set to its count exactly when remaining is still positive, and
returns whether the job still has work (an incomplete set exists or
remaining is positive). -/
theorem c6_job_decrement_spec (j : Job) :
    (Job.decrement j).1.remaining = max (j.remaining - 1) 0
    ∧ (Job.decrement j).1.sets =
        (if max (j.remaining - 1) 0 > 0 then
          j.sets.map (fun s => { s with remaining := s.count })
        else j.sets)
    ∧ ((Job.decrement j).2 = true ↔
        ((∃ s ∈ (Job.decrement j).1.sets, s.remaining > 0)
          ∨ (Job.decrement j).1.remaining > 0)) := by
  simp only [Job.decrement]
  by_cases h : max (j.remaining - 1) 0 > 0 <;>
    simp [h, Job.has_work, Job.has_incomplete_sets, List.any_eq_true]

/-- C7, counterexample: decrementing a Set whose remaining is already 0
does not always leave it at 0: when the job has no other incomplete sets
and passes remain, the cascade into Job.decrement starts a new pass and
resets the Set to its count (here from 0 to 1). -/
theorem c7_floor_reset_counterexample :
    (floorJob.sets.map (fun s => s.remaining)) = [0]
    ∧ ((Set.decrement floorJob 0).sets.map (fun s => s.remaining)) = [1]
    ∧ ((Set.decrement floorJob 0).sets.map (fun s => s.remaining)) ≠ [0] := by
  decide

/-- C7, amended: under the storage bounds (0 < count, 0 ≤ remaining ≤
count) both Job.decrement and Set.decrement (with its cascade) preserve
the bounds; Job.decrement at remaining 0 keeps remaining 0 and leaves the
sets alone; and a Set at remaining 0 stays at 0 unless the cascade begins
a new pass, which is impossible while some sibling is incomplete or while
the job has at most one pass left. -/
theorem c7_invariant_preserved (j : Job) (k : Nat) (hj : JobInv j) :
    JobInv (Job.decrement j).1
    ∧ JobInv (Set.decrement j k)
    ∧ (j.remaining = 0 →
        (Job.decrement j).1.remaining = 0 ∧ (Job.decrement j).1.sets = j.sets)
    ∧ (∀ s : Set, j.sets[k]? = some s → s.remaining = 0 →
        ({ j with sets := decSetAt j.sets k } : Job).has_incomplete_sets = true →
        (Set.decrement j k).sets[k]? = some s)
    ∧ (∀ s : Set, j.sets[k]? = some s → s.remaining = 0 → j.remaining ≤ 1 →
        ∃ t : Set, (Set.decrement j k).sets[k]? = some t ∧ t.remaining = 0) := by
  obtain ⟨hc, hr0, hrc, hsets⟩ := hj
  refine ⟨jobInv_decrement j ⟨hc, hr0, hrc, hsets⟩, ?_, ?_, ?_, ?_⟩
  · simp only [Set.decrement]
    split
    · exact jobInv_decrement _ ⟨hc, hr0, hrc, setInv_decSetAt _ _ hsets⟩
    · exact ⟨hc, hr0, hrc, setInv_decSetAt _ _ hsets⟩
  · intro hr
    have hmax : max (j.remaining - 1) 0 = 0 := max_eq_right (by omega)
    simp only [Job.decrement, hmax]
    simp
  · intro s hks hs0 hinc
    have hdec : (decSetAt j.sets k)[k]? = some s := by
      rw [decSetAt_getElem, hks, Option.map_some']
      rw [set_floor_eq s hs0]
    simp only [Set.decrement]
    rw [if_neg (by simp [hinc])]
    exact hdec
  · intro s hks hs0 hr1
    have hdec : (decSetAt j.sets k)[k]? = some s := by
      rw [decSetAt_getElem, hks, Option.map_some']
      rw [set_floor_eq s hs0]
    simp only [Set.decrement]
    by_cases hinc : ({ j with sets := decSetAt j.sets k } : Job).has_incomplete_sets
    · rw [if_neg (by simp [hinc])]
      exact ⟨s, hdec, hs0⟩
    · rw [if_pos (by simp [hinc])]
      have hmax : max (j.remaining - 1) 0 = 0 := max_eq_right (by omega)
      simp only [Job.decrement, hmax]
      simp
      exact ⟨s, hdec, hs0⟩

/-- C7, witness: the invariant clauses applied at the concrete job used
elsewhere for the floor counterexample. -/
theorem c7_invariant_preserved_witness :
    JobInv (Job.decrement floorJob).1 ∧ JobInv (Set.decrement floorJob 0) := by
  have hinv : JobInv floorJob := by
    unfold JobInv SetInv
    decide
  exact ⟨(c7_invariant_preserved floorJob 0 hinv).1,
    (c7_invariant_preserved floorJob 0 hinv).2.1⟩

end ContinuousPrint
